import Mathlib

/-!
Verification of the SlicingDice python client's authorization, error-mapping
and response-handling layer (`pyslicer/api.py`,
`pyslicer/core/helper_handler_exceptions.py`), shallowly embedded in Lean.

Python exceptions are modelled with `Except`; the `self` object of
`SlicingDiceAPI` is modelled by an explicit `ApiState` value threaded through
the functions; optional strings (`None` in python) are `Option String`.
-/

namespace PySlicer

/-- Errors raised by the client.  The exception classes live in
`pyslicer/exceptions.py`; each constructor corresponds to a class raised by
the code under `src/`, carrying the message given at the raise site.
`MappedServiceError` stands for the service-error classes of the error
catalog, identified by the class name that `helper_handler_exceptions.py`
spells out for each code. -/
inductive SDError where
  | SlicingDiceException (message : String)
  | InvalidSlicingDiceKeysException (message : String)
  | InternalException (message : String)
  | SlicingDiceHTTPError (message : String)
  | MappedServiceError (kind : String) (code : Int) (message : Option String) (status : Int)
deriving Repr, DecidableEq

/-- The credential set held in `self.keys`, as built by
`SlicingDiceAPI._organize_keys`: four optional key strings. -/
structure Keys where
  master_key : Option String
  custom_key : Option String
  read_key : Option String
  write_key : Option String
deriving Repr, DecidableEq

/-- Embeds `SlicingDiceAPI._organize_keys` (api.py lines 47-54): packs the
four optional keys into the dictionary `self.keys`. -/
def _organize_keys (master_key custom_key read_key write_key : Option String) : Keys :=
  { master_key := master_key
    custom_key := custom_key
    read_key := read_key
    write_key := write_key }

/-- Embeds `SlicingDiceAPI._get_key` (api.py lines 56-65): returns the first
non-`None` key in priority order master, custom, write, read together with
its level (2, 2, 1, 0), and raises `InvalidSlicingDiceKeysException` with
message "You need put a key." when all four are `None`. -/
def _get_key (keys : Keys) : Except SDError (String × Int) :=
  match keys.master_key with
  | some k => .ok (k, 2)
  | none =>
    match keys.custom_key with
    | some k => .ok (k, 2)
    | none =>
      match keys.write_key with
      | some k => .ok (k, 1)
      | none =>
        match keys.read_key with
        | some k => .ok (k, 0)
        | none => .error (.InvalidSlicingDiceKeysException "You need put a key.")

/-- The error the spec calls `InvalidCredentialsError`: the exception raised
by `_get_key` when no key is configured. -/
def invalidCredentialsError : SDError :=
  .InvalidSlicingDiceKeysException "You need put a key."

/-- The error the spec calls `InsufficientPermissionError`: the exception
raised by `_check_key` when the resolved level does not match. -/
def insufficientPermissionError : SDError :=
  .InvalidSlicingDiceKeysException "This key is not allowed to perform this operation."

/-- Embeds `SlicingDiceAPI._check_key` (api.py lines 67-79): resolves the key
via `_get_key`, authorizes unconditionally at level 2, otherwise requires the
resolved level to equal `key_level` exactly. -/
def _check_key (keys : Keys) (key_level : Int) : Except SDError String :=
  match _get_key keys with
  | .error e => .error e
  | .ok current_key_level =>
    if current_key_level.2 = 2 then
      .ok current_key_level.1
    else if current_key_level.2 ≠ key_level then
      .error insufficientPermissionError
    else
      .ok current_key_level.1

/-- C1: for every credential set whose resolution yields key `k` at level
`lvl`, `_check_key` returns `k` whenever `lvl = 2` (any required level);
otherwise it fails with `InsufficientPermissionError` exactly when
`lvl ≠ key_level`, and returns `k` when `lvl = key_level`. -/
theorem check_key_exact_match (keys : Keys) (key_level : Int) (k : String) (lvl : Int)
    (h : _get_key keys = .ok (k, lvl)) :
    (lvl = 2 → _check_key keys key_level = .ok k) ∧
    (lvl ≠ 2 → lvl ≠ key_level →
      _check_key keys key_level = .error insufficientPermissionError) ∧
    (lvl ≠ 2 → lvl = key_level → _check_key keys key_level = .ok k) := by
  unfold _check_key
  rw [h]
  refine ⟨fun h2 => by simp [h2], fun h2 hne => by simp [h2, hne], fun h2 heq => by simp [h2, heq]⟩

/-- Witness for `check_key_exact_match`: a write-level key (level 1) fails a
read-required operation (level 0). -/
theorem check_key_exact_match_witness :
    _check_key (_organize_keys none none none (some "w")) 0 =
      .error insufficientPermissionError :=
  (check_key_exact_match (_organize_keys none none none (some "w")) 0 "w" 1 rfl).2.1
    (by decide) (by decide)

/-- C2: key resolution returns the highest-priority configured key in the
order master, custom, write, read with levels 2, 2, 1, 0, and fails with
`InvalidCredentialsError` when all four slots are empty. -/
theorem get_key_priority (keys : Keys) :
    (∀ k, keys.master_key = some k → _get_key keys = .ok (k, 2)) ∧
    (keys.master_key = none → ∀ k, keys.custom_key = some k → _get_key keys = .ok (k, 2)) ∧
    (keys.master_key = none → keys.custom_key = none →
      ∀ k, keys.write_key = some k → _get_key keys = .ok (k, 1)) ∧
    (keys.master_key = none → keys.custom_key = none → keys.write_key = none →
      ∀ k, keys.read_key = some k → _get_key keys = .ok (k, 0)) ∧
    (keys.master_key = none → keys.custom_key = none → keys.write_key = none →
      keys.read_key = none → _get_key keys = .error invalidCredentialsError) := by
  obtain ⟨m, c, r, w⟩ := keys
  refine ⟨?_, ?_, ?_, ?_, ?_⟩ <;>
    · intros
      simp_all [_get_key, invalidCredentialsError]

/-- Witness for `get_key_priority`: with all four keys configured, the master
key wins; with only write and read, the write key wins at level 1. -/
theorem get_key_priority_witness :
    _get_key (_organize_keys (some "m") (some "c") (some "r") (some "w")) = .ok ("m", 2) ∧
    _get_key (_organize_keys none none (some "r") (some "w")) = .ok ("w", 1) ∧
    _get_key (_organize_keys none none none none) = .error invalidCredentialsError :=
  ⟨(get_key_priority (_organize_keys (some "m") (some "c") (some "r") (some "w"))).1 "m" rfl,
   (get_key_priority (_organize_keys none none (some "r") (some "w"))).2.2.1 rfl rfl "w" rfl,
   (get_key_priority (_organize_keys none none none none)).2.2.2.2 rfl rfl rfl rfl⟩

/-- Embeds the `__mapped_errors` dictionary of
`pyslicer/core/helper_handler_exceptions.py` (lines 9-130): the documented
error catalog, pairing each integer service code with the exception class
the source names for it (the class itself lives in `pyslicer/exceptions.py`;
here each class is identified by its name). -/
def mapped_errors : List (Int × String) := [
  (10, "AuthMissingHeaderException"),
  (11, "AuthAPIKeyException"),
  (12, "AuthInvalidAPIKeyException"),
  (13, "AuthIncorrectPermissionException"),
  (14, "AuthInvalidRemoteException"),
  (15, "CustomKeyInvalidFieldCreationException"),
  (16, "CustomKeyInvalidPermissionForFieldException"),
  (17, "CustomKeyInvalidOperationException"),
  (18, "CustomKeyNotPermittedException"),
  (19, "CustomKeyRouteNotPermittedException"),
  (20, "DemoApiInvalidEndpointException"),
  (21, "RequestMissingContentTypeException"),
  (22, "RequestIncorrectContentTypeValueException"),
  (23, "RequestRateLimitException"),
  (24, "RequestInvalidJsonException"),
  (25, "RequestInvalidHttpMethodException"),
  (26, "RequestInvalidEndpointException"),
  (27, "RequestIncorrectHttpException"),
  (28, "RequestExceedLimitException"),
  (30, "AccountMissingPaymentMethodException"),
  (31, "AccountPaymentRequiredException"),
  (32, "AccountBannedException"),
  (33, "AccountDisabledException"),
  (39, "FieldInvalidRangeException"),
  (40, "FieldMissingParamException"),
  (41, "FieldTypeException"),
  (42, "FieldIntegerValuesException"),
  (43, "FieldAlreadyExistsException"),
  (44, "FieldLimitException"),
  (45, "FieldTimeSeriesLimitException"),
  (46, "FieldTimeSeriesSystemLimitException"),
  (47, "FieldDecimalTypeException"),
  (48, "FieldStorageValueException"),
  (49, "FieldInvalidApiNameException"),
  (50, "FieldInvalidNameException"),
  (51, "FieldInvalidDescriptionException"),
  (52, "FieldExceedDescriptionlengthException"),
  (53, "FieldInvalidCardinalityException"),
  (54, "FieldDecimalLimitException"),
  (55, "FieldRangeLimitException"),
  (56, "FieldExceededMaxNameLenghtException"),
  (57, "FieldExceededMaxApiNameLenghtException"),
  (58, "FieldEmptyEntityIdException"),
  (59, "FieldExceededPermitedValueException"),
  (60, "IndexInvalidDecimalPlacesException"),
  (61, "IndexEntityValueTypeException"),
  (62, "IndexFieldNameTypeException"),
  (63, "IndexFieldTypeException"),
  (64, "IndexEntityNameTooBigException"),
  (65, "IndexFieldValueTooBigException"),
  (66, "IndexTimeSeriesDateFormatException"),
  (67, "IndexFieldNotActiveException"),
  (68, "IndexIdLimitException"),
  (69, "IndexFieldLimitException"),
  (70, "IndexDateFormatException"),
  (71, "IndexFieldStringEmptyValueException"),
  (72, "IndexFieldTimeseriesInvalidParameterException"),
  (73, "IndexFieldNumericInvalidValueException"),
  (74, "IndexFieldTimeseriesMissingValueException"),
  (75, "QueryTimeSeriesInvalidPrecisionSecondsException"),
  (76, "QueryTimeSeriesInvalidPrecisionMinutesException"),
  (77, "QueryTimeSeriesInvalidPrecisionHoursException"),
  (78, "QueryDateFormatException"),
  (79, "QueryRelativeIntervalException"),
  (80, "QueryMissingQueryException"),
  (81, "QueryInvalidTypeException"),
  (82, "QueryMissingTypeParamException"),
  (83, "QueryInvalidOperatorException"),
  (84, "QueryIncorrectOperatorUsageException"),
  (85, "QueryFieldNotActiveException"),
  (86, "QueryMissingOperatorException"),
  (87, "QueryIncompleteException"),
  (88, "QueryEventCountQueryException"),
  (89, "QueryInvalidMetricException"),
  (90, "QueryIntegerException"),
  (91, "QueryFieldLimitException"),
  (92, "QueryLevelLimitException"),
  (93, "QueryBadAggsFormationException"),
  (94, "QueryInvalidAggFilterException"),
  (95, "QueryMetricsLevelException"),
  (96, "QueryTimeSeriesException"),
  (97, "QueryMetricsTypeException"),
  (98, "QueryContainsNumericException"),
  (99, "QueryExistsEntityLimitException"),
  (100, "QueryMultipleFiltersException"),
  (102, "QueryMissingNameParamException"),
  (103, "QuerySavedAlreadyExistsException"),
  (104, "QuerySavedNotExistsException"),
  (105, "QuerySavedInvalidTypeException"),
  (106, "MethodNotAllowedException"),
  (107, "QueryExistsMissingIdsException"),
  (108, "QueryInvalidFormatException"),
  (109, "QueryTopValuesParameterEmptyException"),
  (110, "QueryDataExtractionLimitValueException"),
  (111, "QueryDataExtractionLimitValueTooBigException"),
  (112, "QueryDataExtractionLimitAndPageTokenValueException"),
  (113, "QueryDataExtractionPageTokenValueException"),
  (114, "QueryDataExtractionFieldLimitException"),
  (115, "QueryExistsEntityEmptyException"),
  (116, "QuerySavedInvalidQueryValueException"),
  (117, "QuerySavedInvalidCachePeriodValueException"),
  (118, "QuerySavedInvalidNameException"),
  (119, "QueryCountInvalidParameterException"),
  (120, "QueryAggregationInvalidParameterException"),
  (121, "QueryAggregationInvalidFilterQueryException"),
  (122, "QueryInvalidMinfreqException"),
  (123, "QueryExceededMaxNumberQuerysException"),
  (124, "QueryInvalidOperatorUsageException"),
  (125, "QueryInvalidParameterUsageException"),
  (126, "QueryParameterInvalidFieldUsageException"),
  (127, "QueryInvalidFieldUsageException"),
  (130, "InternalException"),
  (131, "FieldCreateInternalException")]

/-- Embeds `slicer_exceptions` of `helper_handler_exceptions.py` (lines
132-135): a `defaultdict` over `__mapped_errors` whose default factory
produces the generic `SlicingDiceException`. -/
def slicer_exceptions (code : Int) : String :=
  match mapped_errors.lookup code with
  | some kind => kind
  | none => "SlicingDiceException"

/-- Helper: a code that is not among the catalog's keys has no lookup
entry. -/
theorem lookup_eq_none_of_not_key {l : List (Int × String)} {c : Int}
    (h : c ∉ l.map Prod.fst) : l.lookup c = none := by
  induction l with
  | nil => rfl
  | cons hd tl ih =>
    obtain ⟨a, b⟩ := hd
    simp only [List.map_cons, List.mem_cons, not_or] at h
    rw [List.lookup_cons, beq_false_of_ne h.1]
    exact ih h.2

set_option maxRecDepth 40000 in
/-- C3: every pair of the documented catalog is mapped to its own error kind,
and any code outside the documented key set maps to the generic
`SlicingDiceException` fallback. -/
theorem slicer_exceptions_catalog :
    (∀ p ∈ mapped_errors, slicer_exceptions p.1 = p.2) ∧
    (∀ code : Int, code ∉ mapped_errors.map Prod.fst →
      slicer_exceptions code = "SlicingDiceException") := by
  constructor
  · decide
  · intro code h
    unfold slicer_exceptions
    rw [lookup_eq_none_of_not_key h]

/-- Witness for `slicer_exceptions_catalog`: code 42 maps to the
field-integer-values error and the undocumented code 1000 maps to the
generic fallback. -/
theorem slicer_exceptions_catalog_witness :
    slicer_exceptions 42 = "FieldIntegerValuesException" ∧
    slicer_exceptions 1000 = "SlicingDiceException" :=
  ⟨slicer_exceptions_catalog.1 (42, "FieldIntegerValuesException") (by decide),
   slicer_exceptions_catalog.2 1000 (by decide)⟩

/-- Decoded JSON values, the result type of `ujson.loads` (an external
library per the spec's scope). -/
inductive Json where
  | null
  | bool (b : Bool)
  | num (n : Int)
  | str (s : String)
  | arr (elems : List Json)
  | obj (fields : List (String × Json))
deriving Repr

/-- Field lookup on a JSON object; non-objects have no fields. -/
def Json.lookupField : Json → String → Option Json
  | .obj fields, key => fields.lookup key
  | _, _ => none

/-- Modelled from the spec: the service-declared error of a decoded body.
The spec's Response Handler contract (section 4.4) says a decoded body with
a service-declared error code triggers an Error Mapper lookup, and its
example body is of the shape with a numeric field named code and a string
field named message; the extraction itself lives in
`pyslicer/core/handler_response.py`, which is not under `src/`. -/
def declaredError (j : Json) : Option (Int × Option String) :=
  match j.lookupField "code" with
  | some (.num c) =>
    some (c, match j.lookupField "message" with
             | some (.str m) => some m
             | _ => none)
  | _ => none

/-- The transient response envelope built by `_handler_request`
(`SDHandlerResponse(result, status_code, headers)`). -/
structure SDHandlerResponse where
  result : Json
  status_code : Int
  headers : List (String × String)

/-- Modelled from the spec: `SDHandlerResponse.request_successful`
(`pyslicer/core/handler_response.py`, not under `src/`).  Per the spec, a
decoded body with a service-declared error code yields the mapped error —
looked up via the Error Catalog — attaching the HTTP status and any message
returned; otherwise the check passes. -/
def request_successful (r : SDHandlerResponse) : Except SDError Bool :=
  match declaredError r.result with
  | some ce => .error (.MappedServiceError (slicer_exceptions ce.1) ce.1 ce.2 r.status_code)
  | none => .ok true

/-- A raw transport response, as consumed by `_handler_request`: `jsonBody`
is the outcome of `ujson.loads(req.text)` (the JSON codec is external), and
`status_code` and `headers` mirror the transport response object. -/
structure RawResponse where
  jsonBody : Except String Json
  status_code : Int
  headers : List (String × String)

/-- Embeds `SlicingDiceAPI._check_request` (api.py lines 150-160): raises
`SlicingDiceHTTPError` when the status code is not 200, else returns
`True`. -/
def _check_request (request : RawResponse) : Except SDError Bool :=
  if request.status_code ≠ 200 then
    .error (.SlicingDiceHTTPError ("HTTP status code: " ++ toString request.status_code))
  else
    .ok true

/-- The mutable fields of a `SlicingDiceAPI` object: the credential set, the
key resolved at construction (`self._api_key`), and the observable metadata
properties `status_code` and `headers` (both `None` until set). -/
structure ApiState where
  keys : Keys
  api_key : String
  status_code : Option Int
  headers : Option (List (String × String))

/-- Embeds `SlicingDiceAPI.__init__` (api.py lines 20-37): organizes the
keys, resolves `self._api_key` via `_get_key` (propagating its exception),
and initializes `status_code` and `headers` to `None`. -/
def SlicingDiceAPI_init (master_key write_key read_key custom_key : Option String) :
    Except SDError ApiState :=
  let keys := _organize_keys master_key custom_key read_key write_key
  match _get_key keys with
  | .error e => .error e
  | .ok kl => .ok { keys := keys, api_key := kl.1, status_code := none, headers := none }

/-- Embeds `SlicingDiceAPI._set_properties_values` (api.py lines 162-169):
stores the response's status code and headers on the object. -/
def _set_properties_values (api : ApiState) (sd_response : SDHandlerResponse) : ApiState :=
  { api with status_code := some sd_response.status_code,
             headers := some sd_response.headers }

/-- Embeds `SlicingDiceAPI._handler_request` (api.py lines 125-148): rejects
a `None` request with `SlicingDiceException "Bad request."`; turns a JSON
decode failure into `InternalException`; builds the response envelope and
runs `request_successful` then `_check_request`, and only on full success
records status/headers and returns the decoded result.  The returned
`ApiState` is the object after the call (unchanged on every failure). -/
def _handler_request (api : ApiState) (req : Option RawResponse) :
    ApiState × Except SDError Json :=
  match req with
  | none => (api, .error (.SlicingDiceException "Bad request."))
  | some r =>
    match r.jsonBody with
    | .error e =>
      (api, .error (.InternalException ("Error while trying to load Json: " ++ e)))
    | .ok result =>
      let sd_response : SDHandlerResponse :=
        { result := result, status_code := r.status_code, headers := r.headers }
      match request_successful sd_response with
      | .error err => (api, .error err)
      | .ok _ =>
        match _check_request r with
        | .error err => (api, .error err)
        | .ok _ => (_set_properties_values api sd_response, .ok sd_response.result)

/-- One call to the external HTTP transport (`Requester.post/get/put`), with
the arguments `_make_request` passes it. -/
inductive TransportCall where
  | post (url : String) (data : Option String) (headers : List (String × String))
  | get (url : String) (headers : List (String × String))
  | put (url : String) (data : Option String) (headers : List (String × String))
deriving Repr, DecidableEq

/-- Embeds the `if`/`elif` dispatch chain of `SlicingDiceAPI._make_request`
(api.py lines 100-121): the transport call chosen for a request-type string,
with `req = None` (no call) for an unrecognized type.  The `delete` branch
issues the same GET transport call as the `get` branch, exactly as in the
source. -/
def select_call (url : String) (req_type : String) (data : Option String)
    (headers : List (String × String)) : Option TransportCall :=
  if req_type = "post" then some (.post url data headers)
  else if req_type = "get" then some (.get url headers)
  else if req_type = "delete" then some (.get url headers)
  else if req_type = "put" then some (.put url data headers)
  else none

/-- Embeds `SlicingDiceAPI._make_request` (api.py lines 81-123): checks the
key, builds the header mapping, chooses `string_data` only when `json_data`
is absent, dispatches on the request-type string (`delete` reuses the GET
transport call), leaves the request `None` for unknown types, and hands the
result to `_handler_request`.  Besides the final state and outcome it
returns the list of transport calls issued, so that the absence of network
activity is observable; `requester` models the external transport's
response. -/
def _make_request (api : ApiState) (requester : TransportCall → RawResponse)
    (url : String) (req_type : String) (key_level : Int)
    (json_data : Option String) (string_data : Option String) (content_type : String) :
    ApiState × List TransportCall × Except SDError Json :=
  match _check_key api.keys key_level with
  | .error e => (api, [], .error e)
  | .ok _ =>
    let headers : List (String × String) :=
      [("Content-Type", content_type), ("Authorization", api.api_key)]
    let data := if string_data ≠ none ∧ json_data = none then string_data else json_data
    match select_call url req_type data headers with
    | none =>
      let out := _handler_request api none
      (out.1, [], out.2)
    | some c =>
      let out := _handler_request api (some (requester c))
      (out.1, [c], out.2)

/-- Helper: `_handler_request` leaves the object unchanged whenever it does
not return a decoded payload. -/
theorem handler_frame (api : ApiState) (req : Option RawResponse) (e : SDError)
    (h : (_handler_request api req).2 = .error e) : (_handler_request api req).1 = api := by
  cases req with
  | none => rfl
  | some r =>
    obtain ⟨body, status, hdrs⟩ := r
    cases body with
    | error s => rfl
    | ok result =>
      cases hd : declaredError result with
      | some ce => simp [_handler_request, request_successful, hd]
      | none =>
        by_cases hs : status = 200
        · simp [_handler_request, request_successful, hd, _check_request, hs] at h
        · simp [_handler_request, request_successful, hd, _check_request, hs]

/-- C4: a response whose decoded body declares a service error code makes the
handler raise the error mapped from that code (attaching the code, message
and HTTP status), even when the status is 200; the object is unchanged and
no payload is returned. -/
theorem handler_raises_mapped_error (api : ApiState) (j : Json) (status : Int)
    (headers : List (String × String)) (c : Int) (msg : Option String)
    (h : declaredError j = some (c, msg)) :
    _handler_request api (some ⟨.ok j, status, headers⟩) =
      (api, .error (.MappedServiceError (slicer_exceptions c) c msg status)) := by
  simp [_handler_request, request_successful, h]

/-- Witness for `handler_raises_mapped_error`: the spec's example, a 200
response with body code 42 and message "Field integer values exception",
raises the field-integer-values error. -/
theorem handler_raises_mapped_error_witness :
    _handler_request ⟨_organize_keys (some "m") none none none, "m", none, none⟩
      (some ⟨.ok (.obj [("code", .num 42),
        ("message", .str "Field integer values exception")]), 200, []⟩) =
      (⟨_organize_keys (some "m") none none none, "m", none, none⟩,
       .error (.MappedServiceError "FieldIntegerValuesException" 42
         (some "Field integer values exception") 200)) :=
  handler_raises_mapped_error ⟨_organize_keys (some "m") none none none, "m", none, none⟩
    (.obj [("code", .num 42), ("message", .str "Field integer values exception")]) 200 [] 42
    (some "Field integer values exception") rfl

/-- C5: dispatching with request type `delete` is extensionally equal to
dispatching with `get`: for every state, transport, url, key level, body and
content type the two calls produce the same transport trace, state and
outcome. -/
theorem delete_dispatches_as_get (api : ApiState) (requester : TransportCall → RawResponse)
    (url : String) (key_level : Int) (json_data string_data : Option String)
    (content_type : String) :
    _make_request api requester url "delete" key_level json_data string_data content_type =
      _make_request api requester url "get" key_level json_data string_data content_type := rfl

/-- C6: on a body that decodes without a service-declared error code, the
handler raises `SlicingDiceHTTPError` carrying the status code whenever the
status is not 200, and returns the decoded payload (recording status and
headers) exactly when the status is 200. -/
theorem handler_non_200_http_error (api : ApiState) (j : Json) (status : Int)
    (headers : List (String × String)) (h : declaredError j = none) :
    _handler_request api (some ⟨.ok j, status, headers⟩) =
      if status = 200 then
        ({ api with status_code := some status, headers := some headers }, .ok j)
      else
        (api, .error (.SlicingDiceHTTPError ("HTTP status code: " ++ toString status))) := by
  by_cases hs : status = 200 <;>
    simp [_handler_request, request_successful, h, _check_request, _set_properties_values, hs]

/-- Witness for `handler_non_200_http_error`: a 404 response with a decoded
body and no error code raises the HTTP error, and the same body at 200 is
returned. -/
theorem handler_non_200_http_error_witness :
    _handler_request ⟨_organize_keys (some "m") none none none, "m", none, none⟩
      (some ⟨.ok (.obj [("status", .str "ok")]), 404, []⟩) =
      (⟨_organize_keys (some "m") none none none, "m", none, none⟩,
       .error (.SlicingDiceHTTPError "HTTP status code: 404")) ∧
    _handler_request ⟨_organize_keys (some "m") none none none, "m", none, none⟩
      (some ⟨.ok (.obj [("status", .str "ok")]), 200, [("h", "v")]⟩) =
      (⟨_organize_keys (some "m") none none none, "m", some 200, some [("h", "v")]⟩,
       .ok (.obj [("status", .str "ok")])) :=
  ⟨handler_non_200_http_error ⟨_organize_keys (some "m") none none none, "m", none, none⟩
      (.obj [("status", .str "ok")]) 404 [] rfl,
   handler_non_200_http_error ⟨_organize_keys (some "m") none none none, "m", none, none⟩
      (.obj [("status", .str "ok")]) 200 [("h", "v")] rfl⟩

/-- C7: a response whose body fails JSON decoding makes the handler raise the
decode error (`InternalException` carrying the parse failure message)
regardless of the HTTP status, headers or anything else — the failure is
raised before any status or error-code inspection. -/
theorem handler_decode_failure (api : ApiState) (status : Int)
    (headers : List (String × String)) (e : String) :
    _handler_request api (some ⟨.error e, status, headers⟩) =
      (api, .error (.InternalException ("Error while trying to load Json: " ++ e))) := rfl

/-- C8: when the authorization check fails, `_make_request` raises that error
with an empty transport trace — no post, get or put call reaches the
transport — and the object is unchanged. -/
theorem auth_failure_no_transport (api : ApiState) (requester : TransportCall → RawResponse)
    (url req_type : String) (key_level : Int) (json_data string_data : Option String)
    (content_type : String) (e : SDError)
    (h : _check_key api.keys key_level = .error e) :
    _make_request api requester url req_type key_level json_data string_data content_type =
      (api, [], .error e) := by
  simp [_make_request, h]

/-- Witness for `auth_failure_no_transport`: a client with no key at all
fails a query-level dispatch with `InvalidCredentialsError` and an empty
transport trace. -/
theorem auth_failure_no_transport_witness :
    _make_request ⟨_organize_keys none none none none, "", none, none⟩
      (fun _ => ⟨.ok .null, 200, []⟩) "url" "post" 0 none none "application/json" =
      (⟨_organize_keys none none none none, "", none, none⟩, [],
        .error invalidCredentialsError) :=
  auth_failure_no_transport ⟨_organize_keys none none none none, "", none, none⟩
    (fun _ => ⟨.ok .null, 200, []⟩) "url" "post" 0 none none "application/json"
    invalidCredentialsError rfl

/-- C10: an unrecognized request-type string leaves the request `None`: no
transport call is issued, and — whenever the authorization check passes —
the call fails with `SlicingDiceException "Bad request."` with the object
unchanged. -/
theorem unknown_req_type_rejected (api : ApiState) (requester : TransportCall → RawResponse)
    (url req_type : String) (key_level : Int) (json_data string_data : Option String)
    (content_type : String)
    (h1 : req_type ≠ "post") (h2 : req_type ≠ "get") (h3 : req_type ≠ "delete")
    (h4 : req_type ≠ "put") :
    (_make_request api requester url req_type key_level json_data string_data
      content_type).2.1 = [] ∧
    (∀ k, _check_key api.keys key_level = .ok k →
      _make_request api requester url req_type key_level json_data string_data content_type =
        (api, [], .error (.SlicingDiceException "Bad request."))) := by
  constructor
  · cases hk : _check_key api.keys key_level <;>
      simp [_make_request, hk, select_call, h1, h2, h3, h4, _handler_request]
  · intro k hk
    simp [_make_request, hk, select_call, h1, h2, h3, h4, _handler_request]

/-- Witness for `unknown_req_type_rejected`: request type "patch" with a
master key yields no transport call and the bad-request error. -/
theorem unknown_req_type_rejected_witness :
    _make_request ⟨_organize_keys (some "m") none none none, "m", none, none⟩
      (fun _ => ⟨.ok .null, 200, []⟩) "url" "patch" 2 none none "application/json" =
      (⟨_organize_keys (some "m") none none none, "m", none, none⟩, [],
        .error (.SlicingDiceException "Bad request.")) :=
  (unknown_req_type_rejected ⟨_organize_keys (some "m") none none none, "m", none, none⟩
    (fun _ => ⟨.ok .null, 200, []⟩) "url" "patch" 2 none none "application/json"
    (by decide) (by decide) (by decide) (by decide)).2 "m" rfl

/-- C9: the observable metadata `status_code` and `headers` start as `None`
at construction, are left unchanged by every failing handler or dispatch
outcome, and are set to the response's status code and header mapping
exactly by a fully successful call. -/
theorem metadata_set_only_on_success :
    (∀ mk wk rk ck st, SlicingDiceAPI_init mk wk rk ck = .ok st →
      st.status_code = none ∧ st.headers = none) ∧
    (∀ api req e, (_handler_request api req).2 = .error e →
      (_handler_request api req).1 = api) ∧
    (∀ api r j, (_handler_request api (some r)).2 = .ok j →
      (_handler_request api (some r)).1.status_code = some r.status_code ∧
      (_handler_request api (some r)).1.headers = some r.headers) ∧
    (∀ api requester url req_type key_level json_data string_data content_type e,
      (_make_request api requester url req_type key_level json_data string_data
        content_type).2.2 = .error e →
      (_make_request api requester url req_type key_level json_data string_data
        content_type).1 = api) := by
  refine ⟨?_, handler_frame, ?_, ?_⟩
  · intro mk wk rk ck st h
    unfold SlicingDiceAPI_init at h
    dsimp only at h
    split at h
    · cases h
    · cases h
      exact ⟨rfl, rfl⟩
  · intro api r j h
    obtain ⟨body, status, hdrs⟩ := r
    cases body with
    | error s => simp [_handler_request] at h
    | ok result =>
      cases hd : declaredError result with
      | some ce => simp [_handler_request, request_successful, hd] at h
      | none =>
        by_cases hs : status = 200
        · simp [_handler_request, request_successful, hd, _check_request, hs,
            _set_properties_values]
        · simp [_handler_request, request_successful, hd, _check_request, hs] at h
  · intro api requester url req_type key_level json_data string_data content_type e h
    unfold _make_request at h ⊢
    cases hk : _check_key api.keys key_level with
    | error e2 => simp [hk]
    | ok k =>
      simp only [hk] at h ⊢
      cases hcall : select_call url req_type
          (if string_data ≠ none ∧ json_data = none then string_data else json_data)
          [("Content-Type", content_type), ("Authorization", api.api_key)] with
      | none => simp only [hcall] at h ⊢; exact handler_frame api none e h
      | some c => simp only [hcall] at h ⊢; exact handler_frame api (some (requester c)) e h

/-- Witness for `metadata_set_only_on_success`: a fresh client has `None`
metadata; a decode failure and a credential failure leave the object
unchanged; a successful 200 call records status 200 and the response
headers. -/
theorem metadata_set_only_on_success_witness :
    ((⟨_organize_keys (some "m") none none none, "m", none, none⟩ : ApiState).status_code = none ∧
     (⟨_organize_keys (some "m") none none none, "m", none, none⟩ : ApiState).headers = none) ∧
    (_handler_request ⟨_organize_keys (some "m") none none none, "m", none, none⟩
      (some ⟨.error "bad", 500, []⟩)).1 =
      ⟨_organize_keys (some "m") none none none, "m", none, none⟩ ∧
    ((_handler_request ⟨_organize_keys (some "m") none none none, "m", none, none⟩
      (some ⟨.ok (.obj []), 200, [("h", "v")]⟩)).1.status_code = some 200 ∧
     (_handler_request ⟨_organize_keys (some "m") none none none, "m", none, none⟩
      (some ⟨.ok (.obj []), 200, [("h", "v")]⟩)).1.headers = some [("h", "v")]) ∧
    (_make_request ⟨_organize_keys none none none none, "", none, none⟩
      (fun _ => ⟨.ok .null, 200, []⟩) "url" "get" 0 none none "application/json").1 =
      ⟨_organize_keys none none none none, "", none, none⟩ :=
  ⟨metadata_set_only_on_success.1 (some "m") none none none
      ⟨_organize_keys (some "m") none none none, "m", none, none⟩ rfl,
   metadata_set_only_on_success.2.1 ⟨_organize_keys (some "m") none none none, "m", none, none⟩
      (some ⟨.error "bad", 500, []⟩)
      (.InternalException "Error while trying to load Json: bad") rfl,
   metadata_set_only_on_success.2.2.1 ⟨_organize_keys (some "m") none none none, "m", none, none⟩
      ⟨.ok (.obj []), 200, [("h", "v")]⟩ (.obj []) rfl,
   metadata_set_only_on_success.2.2.2 ⟨_organize_keys none none none none, "", none, none⟩
      (fun _ => ⟨.ok .null, 200, []⟩) "url" "get" 0 none none "application/json"
      invalidCredentialsError rfl⟩

end PySlicer
